import Mathlib

/-!
Verification of the orchestration core of the zeta-reticula pipeline
(Airflow DAG `zeta_reticula_workflow`, its deployment sensor and its
model-registry hook) against its natural-language specification.

The embedding below translates the Python sources under
`src/airflow/` into executable Lean definitions:

* `default_args` — the DAG-level retry configuration
  (src/airflow/dags/zeta_workflow.py, lines 27-38);
* `RetryPolicy` / `runWithRetries` — the executor retry loop, which is
  Airflow-scheduler code not present in the repository and is therefore
  modelled from the spec (section 4.2);
* `runChain` — the sequential walk of the (linear) task graph, again
  modelled from the spec's stage state machine (section 4.2), applied to
  the concrete task chain wired at lines 302-304 of zeta_workflow.py;
* `ModelDeploymentSensor.poke` / `sensorExecute` — the custom sensor
  (src/airflow/plugins/sensors/model_deployment_sensor.py);
* `send_notification` — the notifier
  (src/airflow/dags/zeta_workflow.py, lines 276-292);
* `xcomPull` — the cross-task value store as observed in the source
  (spec section 9 design note);
* `get_model_versions`, `register_model_version`, `update_model_version`
  — the registry hook (src/airflow/plugins/hooks/model_registry_hook.py).
-/

/-- Embedding of the DAG's `default_args` dictionary
(src/airflow/dags/zeta_workflow.py, lines 27-38).  Durations are in
seconds: `retry_delay = timedelta(minutes=5)` is 300 s,
`max_retry_delay = timedelta(minutes=30)` is 1800 s,
`execution_timeout = timedelta(hours=2)` is 7200 s. -/
structure DefaultArgs where
  owner : String
  dependsOnPast : Bool
  emailOnFailure : Bool
  emailOnRetry : Bool
  retries : Nat
  retryDelaySec : Nat
  retryExponentialBackoff : Bool
  maxRetryDelaySec : Nat
  executionTimeoutSec : Nat
deriving Repr, DecidableEq

/-- The concrete `default_args` value of the zeta workflow DAG. -/
def default_args : DefaultArgs :=
  { owner := "zeta-team"
  , dependsOnPast := false
  , emailOnFailure := true
  , emailOnRetry := true
  , retries := 3
  , retryDelaySec := 300
  , retryExponentialBackoff := true
  , maxRetryDelaySec := 1800
  , executionTimeoutSec := 7200 }

/-- Modelled from the spec: a stage's retry policy, "retry policy (max
attempts, base delay, backoff multiplier, max delay, ...)" (spec
section 3).  The executor that interprets it is Airflow-scheduler code
not present in the repository. -/
structure RetryPolicy where
  maxAttempts : Nat
  baseDelay : Nat
  multiplier : Nat
  maxDelay : Nat
deriving Repr, DecidableEq

/-- Modelled from the spec: the delay after failed attempt `k`, before
re-attempt `k+1`: "wait for min(base_delay * multiplier^(attempt-1),
max_delay)" (spec section 4.2). -/
def retryDelayAfter (p : RetryPolicy) (k : Nat) : Nat :=
  min (p.baseDelay * p.multiplier ^ (k - 1)) p.maxDelay

/-- Modelled from the spec: the executor attempt loop of section 4.2.
`attemptLoop p job k remaining` runs attempt numbers `k, k+1, ...` while
`remaining` attempts are still allowed; `job n` is the success/failure
outcome of attempt `n`.  It returns the number of attempts actually
made, the list of inter-attempt delays waited, and whether the stage
succeeded. -/
def attemptLoop (p : RetryPolicy) (job : Nat → Bool) (k : Nat) :
    Nat → Nat × List Nat × Bool
  | 0 => (0, [], false)
  | remaining + 1 =>
    if job k then (1, [], true)
    else if remaining = 0 then (1, [], false)
    else
      let r := attemptLoop p job (k + 1) remaining
      (r.1 + 1, retryDelayAfter p k :: r.2.1, r.2.2)

/-- Modelled from the spec: running a stage under a retry policy,
starting at attempt 1 with `p.maxAttempts` attempts allowed. -/
def runWithRetries (p : RetryPolicy) (job : Nat → Bool) :
    Nat × List Nat × Bool :=
  attemptLoop p job 1 p.maxAttempts

/-- Modelled from the spec: the DAG-level retry policy induced by
`default_args` ("Run configuration ... these parameterize default retry
policy", spec section 6; the spec's testable property calls the
configured retry count `maxAttempts`).  Exponential backoff doubles the
delay each retry, so the multiplier is 2 when
`retry_exponential_backoff` is set and 1 otherwise. -/
def zetaRetryPolicy : RetryPolicy :=
  { maxAttempts := default_args.retries
  , baseDelay := default_args.retryDelaySec
  , multiplier := if default_args.retryExponentialBackoff then 2 else 1
  , maxDelay := default_args.maxRetryDelaySec }

lemma attemptLoop_allFail (p : RetryPolicy) (job : Nat → Bool)
    (hjob : ∀ n, job n = false) :
    ∀ remaining k, 1 ≤ remaining →
      attemptLoop p job k remaining =
        (remaining,
         (List.range (remaining - 1)).map (fun i => retryDelayAfter p (k + i)),
         false) := by
  intro remaining
  induction remaining with
  | zero => intro k h; omega
  | succ r ih =>
    intro k _
    cases r with
    | zero => simp [attemptLoop, hjob]
    | succ r' =>
      have hr : 1 ≤ r' + 1 := by omega
      have hstep : attemptLoop p job k (r' + 1 + 1) =
          ((attemptLoop p job (k + 1) (r' + 1)).1 + 1,
           retryDelayAfter p k :: (attemptLoop p job (k + 1) (r' + 1)).2.1,
           (attemptLoop p job (k + 1) (r' + 1)).2.2) := by
        rw [attemptLoop, hjob k]
        simp
      rw [hstep, ih (k + 1) hr]
      simp only [Nat.add_sub_cancel, Prod.mk.injEq, List.range_succ_eq_map,
        List.map_cons, List.map_map, List.cons.injEq]
      refine ⟨trivial, ⟨by simp, ?_⟩, trivial⟩
      apply List.map_congr_left
      intro i _
      simp only [Function.comp_apply]
      congr 1
      omega

/-- Modelled from the spec: the terminal stage states of the executor
state machine, "Terminal states: Succeeded, Failed, TimedOut, Skipped"
(spec section 4.2). -/
inductive StageState
  | Succeeded
  | Failed
  | TimedOut
  | Skipped
deriving Repr, DecidableEq

/-- Modelled from the spec: the possible outcomes of actually running a
stage's payload: zero exit status, non-zero exit after retry
exhaustion, or the stage's own timeout elapsing (spec section 4.2). -/
inductive JobOutcome
  | success
  | failure
  | timeout
deriving Repr, DecidableEq

/-- Terminal state that a stage which actually ran ends in. -/
def JobOutcome.toState : JobOutcome → StageState
  | .success => .Succeeded
  | .failure => .Failed
  | .timeout => .TimedOut

/-- Record of one stage after the run: whether it ever entered the
Running state, and its terminal state. -/
structure StageRun where
  ran : Bool
  state : StageState
deriving Repr, DecidableEq

/-- Modelled from the spec: the sequential walk of a linear task chain
under the stage state machine of section 4.2 — a stage enters Running
only if its predecessor Succeeded; "If any predecessor is
Failed/TimedOut/Skipped, this stage transitions directly to Skipped".
`predState` is the terminal state of the previous stage (Succeeded for
the first stage, which has no predecessor).  The scheduler that
interprets the DAG's dependency chain is Airflow code not present in
the repository. -/
def runChain (outcome : String → JobOutcome) :
    List String → StageState → List (String × StageRun)
  | [], _ => []
  | s :: rest, predState =>
    if predState = StageState.Succeeded then
      let st := (outcome s).toState
      (s, ⟨true, st⟩) :: runChain outcome rest st
    else
      (s, ⟨false, StageState.Skipped⟩) :: runChain outcome rest StageState.Skipped

/-- The task chain of the zeta workflow DAG, exactly as wired at
src/airflow/dags/zeta_workflow.py lines 302-304:
start_pipeline >> check_model_registry >> get_latest_model >>
ingest_model >> quantize_model >> validate_model >> deploy_model >>
test_model >> send_notification. -/
def zetaStages : List String :=
  [ "start_pipeline"
  , "check_model_registry"
  , "get_latest_model"
  , "ingest_model"
  , "quantize_model"
  , "validate_model"
  , "deploy_model"
  , "test_model"
  , "send_notification" ]

lemma runChain_length (outcome : String → JobOutcome) :
    ∀ (l : List String) (pred : StageState),
      (runChain outcome l pred).length = l.length := by
  intro l
  induction l with
  | nil => intro pred; simp [runChain]
  | cons s rest ih =>
    intro pred
    by_cases h : pred = StageState.Succeeded <;> simp [runChain, h, ih]

lemma runChain_skipped_of_notSucceeded (outcome : String → JobOutcome) :
    ∀ (l : List String) (pred : StageState), pred ≠ StageState.Succeeded →
      ∀ e ∈ runChain outcome l pred, e.2 = ⟨false, StageState.Skipped⟩ := by
  intro l
  induction l with
  | nil => intro pred _ e he; simp [runChain] at he
  | cons s rest ih =>
    intro pred hpred e he
    simp only [runChain, if_neg hpred] at he
    rcases List.mem_cons.mp he with h | h
    · rw [h]
    · exact ih StageState.Skipped (by simp) e h

lemma runChain_infectious (outcome : String → JobOutcome) :
    ∀ (l : List String) (pred : StageState) (i j : Nat)
      (ei ej : String × StageRun), i < j →
      (runChain outcome l pred).get? i = some ei →
      (runChain outcome l pred).get? j = some ej →
      ei.2.state ≠ StageState.Succeeded →
      ej.2 = ⟨false, StageState.Skipped⟩ := by
  intro l
  induction l with
  | nil =>
    intro pred i j ei ej _ hi _ _
    simp [runChain] at hi
  | cons s rest ih =>
    intro pred i j ei ej hij hi hj hstate
    by_cases hpred : pred = StageState.Succeeded
    · -- head actually runs
      simp only [runChain, if_pos hpred] at hi hj
      cases i with
      | zero =>
        -- the head itself is the failing stage
        simp only [List.get?_cons_zero, Option.some.injEq] at hi
        cases j with
        | zero => omega
        | succ j' =>
          simp only [List.get?_cons_succ] at hj
          refine runChain_skipped_of_notSucceeded outcome rest
            ((outcome s).toState) ?_ ej (List.get?_mem hj)
          rw [← hi] at hstate
          exact hstate
      | succ i' =>
        cases j with
        | zero => omega
        | succ j' =>
          simp only [List.get?_cons_succ] at hi hj
          exact ih ((outcome s).toState) i' j' ei ej (by omega) hi hj hstate
    · -- head (and everything after) is skipped
      exact runChain_skipped_of_notSucceeded outcome (s :: rest) pred hpred ej
        (List.get?_mem hj)

/-- Result of the sensor's execute loop.  The index carried by each
constructor is the number of the poll at which the loop stopped; poll
`k` happens after `k` sleeps, at elapsed time `k * retry_delay` in the
idealised timing model (polls are instantaneous and each sleep lasts
exactly `retry_delay` seconds). -/
inductive SensorResult
  | Ready (pollIndex : Nat)
  | TimedOutAt (pollIndex : Nat)
deriving Repr, DecidableEq

/-- Embedding of ModelDeploymentSensor.execute
(src/airflow/plugins/sensors/model_deployment_sensor.py, lines
133-151): record the start time, then loop — if poke succeeds return;
if the elapsed time is strictly greater than the timeout raise the
timeout exception; otherwise sleep `retry_delay` and repeat.  `poke k`
is the outcome of the k-th poll; `fuel` bounds the recursion and is
irrelevant whenever it exceeds the number of iterations actually
performed. -/
def sensorExecute (timeout retry_delay : Nat) (poke : Nat → Bool) :
    Nat → Nat → Option SensorResult
  | 0, _ => none
  | fuel + 1, k =>
    if poke k then some (SensorResult.Ready k)
    else if k * retry_delay > timeout then some (SensorResult.TimedOutAt k)
    else sensorExecute timeout retry_delay poke fuel (k + 1)

lemma sensorExecute_timedOut_cond (t d : Nat) (poke : Nat → Bool) :
    ∀ (fuel k m : Nat),
      sensorExecute t d poke fuel k = some (SensorResult.TimedOutAt m) →
      k ≤ m ∧ (∀ i, k ≤ i → i ≤ m → poke i = false) ∧ m * d > t ∧
        (∀ j, k ≤ j → j < m → j * d ≤ t) := by
  intro fuel
  induction fuel with
  | zero => intro k m h; simp [sensorExecute] at h
  | succ f ih =>
    intro k m h
    simp only [sensorExecute] at h
    by_cases hp : poke k = true
    · simp [hp] at h
    · have hp' : poke k = false := by revert hp; cases poke k <;> simp
      rw [if_neg (by simp [hp'])] at h
      by_cases ht : k * d > t
      · rw [if_pos ht] at h
        simp only [Option.some.injEq, SensorResult.TimedOutAt.injEq] at h
        subst h
        refine ⟨le_refl _, ?_, ht, ?_⟩
        · intro i h1 h2
          have : i = k := by omega
          rw [this]; exact hp'
        · intro j h1 h2; omega
      · rw [if_neg ht] at h
        obtain ⟨h1, h2, h3, h4⟩ := ih (k + 1) m h
        refine ⟨by omega, ?_, h3, ?_⟩
        · intro i hki him
          rcases Nat.eq_or_lt_of_le hki with heq | hlt
          · rw [← heq]; exact hp'
          · exact h2 i (by omega) him
        · intro j hkj hjm
          rcases Nat.eq_or_lt_of_le hkj with heq | hlt
          · subst heq; omega
          · exact h4 j (by omega) hjm

lemma sensorExecute_timedOut_of_cond (t d : Nat) (poke : Nat → Bool) :
    ∀ (fuel k m : Nat), k ≤ m → m + 1 ≤ k + fuel →
      (∀ i, k ≤ i → i ≤ m → poke i = false) →
      m * d > t →
      (∀ j, k ≤ j → j < m → j * d ≤ t) →
      sensorExecute t d poke fuel k = some (SensorResult.TimedOutAt m) := by
  intro fuel
  induction fuel with
  | zero => intro k m h1 h2; omega
  | succ f ih =>
    intro k m hkm hfuel hfalse ht hle
    have hpk : poke k = false := hfalse k (le_refl _) hkm
    simp only [sensorExecute]
    rw [if_neg (by simp [hpk])]
    rcases Nat.eq_or_lt_of_le hkm with heq | hlt
    · subst heq
      rw [if_pos ht]
    · have hnot : ¬ (k * d > t) := by
        have := hle k (le_refl _) hlt
        omega
      rw [if_neg hnot]
      exact ih (k + 1) m (by omega) (by omega)
        (fun i h1 h2 => hfalse i (by omega) h2) ht
        (fun j h1 h2 => hle j (by omega) h2)

/-- Embedding of ModelDeploymentSensor.poke
(src/airflow/plugins/sensors/model_deployment_sensor.py, lines
69-113).  `parentPoke` is the result of the inherited pod-readiness
check, `health` the result of the _check_model_health call; an
`Except.error` value models a raised exception, which the method logs
and re-raises.  When the pod is ready and the health check passes the
method returns True; when the pod is ready but the health check returns
False it logs a retry message and falls through to return False; when
the pod is not ready it returns False without consulting the health
check. -/
def ModelDeploymentSensor.poke (parentPoke health : Except String Bool) :
    Except String Bool :=
  match parentPoke with
  | .error e => .error e
  | .ok isReady =>
    if isReady then
      match health with
      | .error e => .error e
      | .ok healthy => if healthy then .ok true else .ok false
    else .ok false

/-- A task instance as seen by the notification callable: its task id,
its Airflow state string, and the error detail of its last failure —
the latter is information the run holds but, as proved below, the
notification message never uses. -/
structure TaskInst where
  task_id : String
  state : String
  errorDetail : String
deriving Repr, DecidableEq

/-- The failed-task filter of send_notification
(src/airflow/dags/zeta_workflow.py, line 280):
failed_tasks = [ti.task_id for ti in task_instances if ti.state == 'failed']. -/
def failedTaskIds (tis : List TaskInst) : List String :=
  (tis.filter (fun ti => ti.state = "failed")).map TaskInst.task_id

/-- Embedding of send_notification
(src/airflow/dags/zeta_workflow.py, lines 276-292).  `modelVersionXcom`
is the value of xcom_pull for key model_version (None renders as the
string "None" inside a Python f-string). -/
def send_notification (tis : List TaskInst) (modelVersionXcom : Option String) :
    String :=
  let failed := failedTaskIds tis
  if failed ≠ [] then
    "❌ Pipeline failed. Failed tasks: " ++ String.intercalate ", " failed
  else
    "✅ Pipeline completed successfully! Deployed model: " ++
      modelVersionXcom.getD "None"

/-- The dependency edges of the zeta workflow DAG
(src/airflow/dags/zeta_workflow.py, lines 302-304). -/
def zetaEdges : List (String × String) :=
  [ ("start_pipeline", "check_model_registry")
  , ("check_model_registry", "get_latest_model")
  , ("get_latest_model", "ingest_model")
  , ("ingest_model", "quantize_model")
  , ("quantize_model", "validate_model")
  , ("validate_model", "deploy_model")
  , ("deploy_model", "test_model")
  , ("test_model", "send_notification") ]

/-- Bounded reachability along directed edges: `isAncestor edges fuel a b`
is true when there is a non-empty path from `a` to `b` of length at
most `fuel`. -/
def isAncestor (edges : List (String × String)) : Nat → String → String → Bool
  | 0, _, _ => false
  | fuel + 1, a, b =>
    edges.any (fun e => e.1 = a && (e.2 = b || isAncestor edges fuel e.2 b))

/-- Transitive-predecessor relation of the zeta DAG: `zetaAncestor a b`
holds when stage `a` is a transitive predecessor of stage `b`.  The
fuel `zetaEdges.length` covers the longest possible simple path. -/
def zetaAncestor (a b : String) : Bool :=
  isAncestor zetaEdges zetaEdges.length a b

/-- Modelled from the spec: the xcom cross-task value store, as the
design note of spec section 9 describes the observed source behavior —
"stringly-keyed, implicitly globally readable": a pull is keyed by the
producing task id and key only, the requesting task is not consulted
and no ancestor check is performed.  (The store implementation itself
is Airflow code not present in the repository; the interface used at
src/airflow/dags/zeta_workflow.py lines 79 and 97 is
xcom_push(key, value) / xcom_pull(task_ids, key).) -/
def xcomPull (store : List (String × String × String))
    (task_ids key : String) : Option String :=
  (store.find? (fun e => e.1 = task_ids && e.2.1 = key)).map (fun e => e.2.2)

/-- The xcom store after get_latest_model has run
(src/airflow/dags/zeta_workflow.py, lines 75-80): one entry pushed by
task get_latest_model under key model_version. -/
def zetaXcomStore : List (String × String × String) :=
  [("get_latest_model", "model_version", "zeta-model-v1.0.0")]

/-- An HTTP response of the model registry as the hook consumes it: a
status code and, for version-listing requests, the versions array of
the JSON body. -/
structure RegResponse where
  status_code : Nat
  versions : List String
deriving Repr, DecidableEq

/-- What a registry-hook call surfaces to its caller: the decoded
versions, a raised HTTPError (raise_for_status, for any status ≥ 400),
or a raised connection-level RequestException. -/
inductive RegResult
  | ok (versions : List String)
  | httpError (code : Nat)
  | connError
deriving Repr, DecidableEq

/-- Embedding of ModelRegistryHook.get_model_versions
(src/airflow/plugins/hooks/model_registry_hook.py, lines 70-98).
`responses n` is the response the registry would give to the n-th
request the hook makes, `none` standing for a connection failure.  The
body performs a single session.get, calls raise_for_status (which
raises for any status ≥ 400), and returns the versions field; any
RequestException is logged and re-raised.  There is no retry loop, so
the result is a function of `responses 0` alone; the first component is
the number of HTTP requests issued. -/
def get_model_versions (responses : Nat → Option RegResponse) :
    Nat × RegResult :=
  (1, match responses 0 with
      | none => RegResult.connError
      | some r =>
        if 400 ≤ r.status_code then RegResult.httpError r.status_code
        else RegResult.ok r.versions)

/-- Embedding of ModelRegistryHook.register_model_version
(src/airflow/plugins/hooks/model_registry_hook.py, lines 112-153): a
single session.post followed by raise_for_status, no retry loop; the
first component is the number of HTTP requests issued. -/
def register_model_version (responses : Nat → Option RegResponse) :
    Nat × RegResult :=
  (1, match responses 0 with
      | none => RegResult.connError
      | some r =>
        if 400 ≤ r.status_code then RegResult.httpError r.status_code
        else RegResult.ok r.versions)

/-- Python dict.update on string-keyed dicts, as association lists:
every key of `cur` keeps its position, its value replaced when `upd`
also binds it; keys of `upd` are appended afterwards.  Lookups take the
first match, so an appended duplicate of an already-rebound key is
shadowed, matching dict overwrite semantics. -/
def dictUpdate : List (String × String) → List (String × String) →
    List (String × String)
  | [], upd => upd
  | p :: rest, upd => (p.1, (upd.lookup p.1).getD p.2) :: dictUpdate rest upd

/-- The stored model-version record, as far as update_model_version
reads it: current.get("metadata", {}) — a record may lack the metadata
field, in which case the empty dict is used. -/
structure ModelVersionRecord where
  metadata : Option (List (String × String))
deriving Repr, DecidableEq

/-- The JSON body update_model_version sends with PATCH: a description
field only when the description argument is not None, and a metadata
field only when the metadata argument is not None. -/
structure PatchPayload where
  description : Option String
  metadata : Option (List (String × String))
deriving Repr, DecidableEq

/-- Embedding of the payload construction of
ModelRegistryHook.update_model_version
(src/airflow/plugins/hooks/model_registry_hook.py, lines 155-202):
fetch the current record, start from an empty payload, add the
description if given, and, if metadata is given, add the merge of the
stored metadata updated with the supplied metadata. -/
def update_model_version (current : ModelVersionRecord)
    (description : Option String)
    (metadata : Option (List (String × String))) : PatchPayload :=
  { description := description
  , metadata := metadata.map (fun m => dictUpdate (current.metadata.getD []) m) }

lemma dictUpdate_preserves (k v : String) :
    ∀ (cur upd : List (String × String)),
      upd.lookup k = none → cur.lookup k = some v →
      (dictUpdate cur upd).lookup k = some v := by
  intro cur
  induction cur with
  | nil => intro upd _ hcur; simp [List.lookup] at hcur
  | cons p rest ih =>
    intro upd hupd hcur
    rw [dictUpdate]
    rw [List.lookup] at hcur ⊢
    by_cases hk : k = p.1
    · have hbeq : (k == p.1) = true := by simp [hk]
      rw [hbeq] at hcur ⊢
      simp only [Option.some.injEq] at hcur
      rw [hk] at hupd ⊢
      rw [hupd]
      simpa using hcur
    · have hbeq : (k == p.1) = false := by simp [hk]
      rw [hbeq] at hcur ⊢
      exact ih upd hupd hcur

/-- Outcome assignment for a run in which quantize_model exhausts its
retries and fails while every stage that gets to run succeeds. -/
def outcomeQuantizeFails : String → JobOutcome :=
  fun s => if s = "quantize_model" then JobOutcome.failure else JobOutcome.success

/-- C1: for every retry policy with maxAttempts = n, a permanently
failing external job is attempted exactly n times and the delay before
re-attempt k+1 equals min(base_delay * multiplier^(k-1), max_delay)
(element i of the delay list is the delay after attempt i+1, hence the
exponent i); with the DAG's configured policy — 5-minute base delay,
exponential backoff, 30-minute cap, retries = 3 — the total attempt
count is exactly 3. -/
theorem C1_retry_attempts (p : RetryPolicy) (job : Nat → Bool)
    (hjob : ∀ n, job n = false) (hmax : 1 ≤ p.maxAttempts) :
    (runWithRetries p job).1 = p.maxAttempts ∧
    (runWithRetries p job).2.1 =
      (List.range (p.maxAttempts - 1)).map
        (fun i => min (p.baseDelay * p.multiplier ^ i) p.maxDelay) ∧
    (runWithRetries zetaRetryPolicy job).1 = 3 := by
  have h := attemptLoop_allFail p job hjob p.maxAttempts 1 hmax
  have hz := attemptLoop_allFail zetaRetryPolicy job hjob 3 1 (by omega)
  refine ⟨?_, ?_, ?_⟩
  · rw [runWithRetries, h]
  · rw [runWithRetries, h]
    show (List.range (p.maxAttempts - 1)).map (fun i => retryDelayAfter p (1 + i)) = _
    apply List.map_congr_left
    intro i _
    simp [retryDelayAfter, Nat.add_sub_cancel_left]
  · rw [runWithRetries]
    have hzp : zetaRetryPolicy.maxAttempts = 3 := rfl
    rw [hzp, hz]

/-- Witness for C1 at the DAG's configured policy with a job that fails
every attempt: 3 attempts, delays 300 s then 600 s. -/
theorem C1_retry_attempts_witness :
    (runWithRetries zetaRetryPolicy (fun _ => false)).1 = 3 ∧
    (runWithRetries zetaRetryPolicy (fun _ => false)).2.1 = [300, 600] := by
  have h := C1_retry_attempts zetaRetryPolicy (fun _ => false)
    (fun n => rfl) (by decide)
  refine ⟨h.2.2, ?_⟩
  rw [h.2.1]
  decide

/-- C2: in the zeta workflow chain, if a stage ends Failed or TimedOut
then every stage downstream of it (its transitive successors, i.e.
every later position of the chain) ends Skipped and never enters
Running. -/
theorem C2_infectious_skip (outcome : String → JobOutcome) (i j : Nat)
    (ei ej : String × StageRun) (hij : i < j)
    (hi : (runChain outcome zetaStages StageState.Succeeded).get? i = some ei)
    (hj : (runChain outcome zetaStages StageState.Succeeded).get? j = some ej)
    (hfail : ei.2.state = StageState.Failed ∨ ei.2.state = StageState.TimedOut) :
    ej.2.state = StageState.Skipped ∧ ej.2.ran = false := by
  have h := runChain_infectious outcome zetaStages StageState.Succeeded i j ei ej
    hij hi hj (by rcases hfail with h1 | h1 <;> rw [h1] <;> simp)
  rw [h]
  exact ⟨rfl, rfl⟩

/-- Witness for C2: quantize_model fails, validate_model ends Skipped
without ever running. -/
theorem C2_infectious_skip_witness :
    (runChain outcomeQuantizeFails zetaStages StageState.Succeeded).get? 4 =
      some ("quantize_model", ⟨true, StageState.Failed⟩) ∧
    (runChain outcomeQuantizeFails zetaStages StageState.Succeeded).get? 5 =
      some ("validate_model", ⟨false, StageState.Skipped⟩) ∧
    ("validate_model", (⟨false, StageState.Skipped⟩ : StageRun)).2.state =
      StageState.Skipped ∧
    ("validate_model", (⟨false, StageState.Skipped⟩ : StageRun)).2.ran = false := by
  refine ⟨by decide, by decide, ?_⟩
  exact C2_infectious_skip outcomeQuantizeFails 4 5
    ("quantize_model", ⟨true, StageState.Failed⟩)
    ("validate_model", ⟨false, StageState.Skipped⟩)
    (by omega) (by decide) (by decide) (Or.inl rfl)

/-- C3 (amended): in the idealised timing model (polls instantaneous,
each sleep exactly retry_delay, poll k at elapsed time k * retry_delay)
the execute loop returns the timeout error exactly when, at poll index
m, no poll up to and including m reported ready, the elapsed time
m * retry_delay STRICTLY exceeds the timeout, and every earlier poll
happened at elapsed time at most the timeout.  The source uses
time.time() - started_at > self.timeout, so at elapsed time exactly
equal to the timeout the loop keeps polling — the claim's
greater-or-equal reading is refuted by C3_counterexample below. -/
theorem C3_timeout_strict (t d : Nat) (poke : Nat → Bool) (fuel m : Nat)
    (hfuel : m + 1 ≤ fuel) :
    (sensorExecute t d poke fuel 0 = some (SensorResult.TimedOutAt m)) ↔
      ((∀ i, i ≤ m → poke i = false) ∧ m * d > t ∧
       (∀ j, j < m → j * d ≤ t)) := by
  constructor
  · intro h
    obtain ⟨_, h2, h3, h4⟩ := sensorExecute_timedOut_cond t d poke fuel 0 m h
    exact ⟨fun i hi => h2 i (Nat.zero_le _) hi, h3,
      fun j hj => h4 j (Nat.zero_le _) hj⟩
  · rintro ⟨h1, h2, h3⟩
    exact sensorExecute_timedOut_of_cond t d poke fuel 0 m (Nat.zero_le _)
      (by omega) (fun i _ hi => h1 i hi) h2 (fun j _ hj => h3 j hj)

/-- Witness for C3 with the spec's scenario numbers (300-second
timeout, 30-second poll interval, predicate never ready): the loop
stops with the timeout error at poll 11, elapsed 330 s. -/
theorem C3_timeout_strict_witness :
    sensorExecute 300 30 (fun _ => false) 20 0 =
      some (SensorResult.TimedOutAt 11) :=
  (C3_timeout_strict 300 30 (fun _ => false) 20 11 (by omega)).mpr
    ⟨fun i _ => rfl, by omega, fun j hj => by omega⟩

/-- C3 counterexample to the claim as stated: with a 300-second timeout
and 30-second poll interval and a predicate that is never ready,
elapsed time reaches the timeout (300 = 10 * 30 ≥ 300) at poll 10, yet
the loop does not return TimedOut there — it sleeps and polls once more,
returning TimedOut only at poll 11 (elapsed 330 > 300).  So the loop
does not return TimedOut as soon as elapsed ≥ timeout, and it keeps
polling after the timeout has elapsed. -/
theorem C3_counterexample :
    sensorExecute 300 30 (fun _ => false) 20 0 =
      some (SensorResult.TimedOutAt 11) ∧
    10 * 30 ≥ 300 ∧
    sensorExecute 300 30 (fun _ => false) 20 0 ≠
      some (SensorResult.TimedOutAt 10) := by
  refine ⟨by decide, by omega, by decide⟩

/-- C4: if the predicate is already true at the first poll, the sensor
returns ready at poll index 0 — zero sleeps have occurred, so no
pollInterval delay is incurred. -/
theorem C4_ready_first_poll (t d : Nat) (poke : Nat → Bool) (fuel : Nat)
    (h : poke 0 = true) :
    sensorExecute t d poke (fuel + 1) 0 = some (SensorResult.Ready 0) := by
  simp [sensorExecute, h]

/-- Witness for C4: an always-ready predicate returns Ready on poll 0
even with only one unit of fuel (no sleep ever executed). -/
theorem C4_ready_first_poll_witness :
    (fun _ : Nat => true) 0 = true ∧
    sensorExecute 300 30 (fun _ => true) 1 0 = some (SensorResult.Ready 0) :=
  ⟨rfl, C4_ready_first_poll 300 30 (fun _ => true) 0 rfl⟩

/-- C5 (amended): the notification rule actually implemented — if any
task instance has state failed (in Airflow a timed-out task also ends
in state failed), the message is the failure line listing exactly the
failed task ids, WITHOUT their error details; otherwise it is the
success line carrying the model version pulled from the xcom store
(rendered None when absent).  The outcome is conveyed only through the
failure/success prefix of the message. -/
theorem C5_message_rule (tis : List TaskInst) (v : Option String) :
    (∀ ti ∈ tis, ti.state = "failed" → ti.task_id ∈ failedTaskIds tis) ∧
    (∀ s ∈ failedTaskIds tis, ∃ ti ∈ tis, ti.state = "failed" ∧ ti.task_id = s) ∧
    (failedTaskIds tis ≠ [] →
      send_notification tis v =
        "❌ Pipeline failed. Failed tasks: " ++
          String.intercalate ", " (failedTaskIds tis)) ∧
    (failedTaskIds tis = [] →
      send_notification tis v =
        "✅ Pipeline completed successfully! Deployed model: " ++
          v.getD "None") := by
  refine ⟨?_, ?_, ?_, ?_⟩
  · intro ti hmem hstate
    simp only [failedTaskIds, List.mem_map]
    exact ⟨ti, List.mem_filter.mpr ⟨hmem, by simp [hstate]⟩, rfl⟩
  · intro s hs
    simp only [failedTaskIds, List.mem_map] at hs
    obtain ⟨ti, hti, rfl⟩ := hs
    have h := List.mem_filter.mp hti
    exact ⟨ti, h.1, by simpa using h.2, rfl⟩
  · intro hne
    simp only [send_notification]
    rw [if_pos hne]
  · intro he
    simp only [send_notification]
    rw [if_neg (by simp [he])]

/-- Witness for C5 (amended): one failed task produces the failure
message listing it. -/
theorem C5_message_rule_witness :
    failedTaskIds [⟨"quantize_model", "failed", "disk full"⟩] ≠ [] ∧
    send_notification [⟨"quantize_model", "failed", "disk full"⟩] none =
      "❌ Pipeline failed. Failed tasks: quantize_model" := by
  have h := (C5_message_rule [⟨"quantize_model", "failed", "disk full"⟩]
    none).2.2.1 (by decide)
  exact ⟨by decide, by rw [h]; rfl⟩

/-- C5 counterexample to the claim as stated: two runs identical except
for the last error detail of the failed stage produce the SAME
notification message, so the message cannot list each failed stage id
"together with its last error detail". -/
theorem C5_counterexample :
    send_notification [⟨"quantize_model", "failed", "disk full"⟩] none =
      send_notification [⟨"quantize_model", "failed", "out of memory"⟩] none ∧
    ("disk full" : String) ≠ "out of memory" :=
  ⟨rfl, by decide⟩

/-- C6 fails on the code: send_notification is wired strictly
downstream of test_model (zeta_workflow.py line 304) with the default
all-success trigger rule, so in a run where quantize_model fails the
notification stage is skipped, never enters Running, and its callable
— the only producer of the summary message — never executes.  The run
therefore completes with NO summary message, contradicting the claim
that every run, including failing ones, produces exactly one summary. -/
theorem C6_notification_skipped_on_failure :
    (runChain outcomeQuantizeFails zetaStages StageState.Succeeded).get? 8 =
      some ("send_notification", ⟨false, StageState.Skipped⟩) := by
  decide

/-- C7 fails on the code: the xcom pull interface consults only the
producing task id and the key — it takes no requesting stage and does
no ancestry check — so the value pushed by get_latest_model is readable
with no error by any task, exemplified here for check_model_registry,
of which get_latest_model is NOT a transitive predecessor (it is
downstream of it).  No NotAnAncestorError exists anywhere in the
source.  The last conjunct checks the ancestry relation is the real
one: get_latest_model IS a transitive predecessor of quantize_model. -/
theorem C7_xcom_no_ancestor_check :
    xcomPull zetaXcomStore "get_latest_model" "model_version" =
      some "zeta-model-v1.0.0" ∧
    zetaAncestor "get_latest_model" "check_model_registry" = false ∧
    zetaAncestor "get_latest_model" "quantize_model" = true := by
  refine ⟨rfl, by decide, by decide⟩

/-- C8 counterexample to the claim as stated: a registry that answers
500 to every request.  The claim predicts 3 attempts with linear
backoff before surfacing the error; get_model_versions issues exactly
one request and surfaces the HTTPError immediately. -/
theorem C8_counterexample :
    (get_model_versions (fun _ => some ⟨500, []⟩)).1 = 1 ∧
    (get_model_versions (fun _ => some ⟨500, []⟩)).2 = RegResult.httpError 500 ∧
    (1 : Nat) ≠ 3 := by
  refine ⟨rfl, by decide, by omega⟩

/-- C8 (amended): every version-lookup failure — 4xx, 5xx or connection
failure alike — is surfaced to the caller immediately after a single
request, with no retry and no backoff; the non-idempotent registration
write likewise issues exactly one request and is never auto-retried. -/
theorem C8_single_request (responses : Nat → Option RegResponse) :
    (get_model_versions responses).1 = 1 ∧
    (register_model_version responses).1 = 1 ∧
    (∀ r, responses 0 = some r → 400 ≤ r.status_code →
      (get_model_versions responses).2 = RegResult.httpError r.status_code) ∧
    (responses 0 = none → (get_model_versions responses).2 = RegResult.connError) ∧
    (∀ r, responses 0 = some r → r.status_code < 400 →
      (get_model_versions responses).2 = RegResult.ok r.versions) := by
  refine ⟨rfl, rfl, ?_, ?_, ?_⟩
  · intro r h hc
    simp [get_model_versions, h, hc]
  · intro h
    simp [get_model_versions, h]
  · intro r h hc
    simp only [get_model_versions, h]
    rw [if_neg (by omega)]

/-- Witness for C8 (amended): a permanently-503 registry gets exactly
one request and an immediate HTTPError. -/
theorem C8_single_request_witness :
    (get_model_versions (fun _ => some ⟨503, []⟩)).1 = 1 ∧
    (get_model_versions (fun _ => some ⟨503, []⟩)).2 = RegResult.httpError 503 := by
  have h := C8_single_request (fun _ => some ⟨503, []⟩)
  exact ⟨h.1, h.2.2.1 ⟨503, []⟩ rfl (by decide)⟩

/-- C9: update_model_version merges the supplied metadata into the
version's stored metadata — a key bound in the stored metadata and
absent from the update argument keeps its stored value in the PATCH
payload's metadata — and when the description argument is None the
payload carries no description field. -/
theorem C9_metadata_merge (current : ModelVersionRecord)
    (upd : List (String × String)) (desc : Option String) (k v : String)
    (hupd : upd.lookup k = none)
    (hcur : (current.metadata.getD []).lookup k = some v) :
    ((update_model_version current desc (some upd)).metadata =
      some (dictUpdate (current.metadata.getD []) upd) ∧
     (dictUpdate (current.metadata.getD []) upd).lookup k = some v) ∧
    (update_model_version current none (some upd)).description = none :=
  ⟨⟨rfl, dictUpdate_preserves k v _ upd hupd hcur⟩, rfl⟩

/-- Witness for C9: stored metadata binds a to 1 and b to 2, the update
rebinds only b; the merged payload still binds a to 1. -/
theorem C9_metadata_merge_witness :
    ([("b", "3")] : List (String × String)).lookup "a" = none ∧
    (((ModelVersionRecord.mk (some [("a", "1"), ("b", "2")])).metadata.getD
      []).lookup "a" = some "1") ∧
    (dictUpdate [("a", "1"), ("b", "2")] [("b", "3")]).lookup "a" = some "1" := by
  refine ⟨by decide, by decide, ?_⟩
  exact (C9_metadata_merge ⟨some [("a", "1"), ("b", "2")]⟩ [("b", "3")] none
    "a" "1" (by decide) (by decide)).1.2

/-- C10: the deployment sensor's poke returns false — not an error —
when the pod is ready but the model health check returns false, so
polling continues; and poke returns true exactly when the pod readiness
check and the health check both pass in the same poll. -/
theorem C10_poke_health (p h : Except String Bool) :
    ModelDeploymentSensor.poke (Except.ok true) (Except.ok false) =
      Except.ok false ∧
    (ModelDeploymentSensor.poke p h = Except.ok true ↔
      (p = Except.ok true ∧ h = Except.ok true)) := by
  refine ⟨rfl, ?_, ?_⟩
  · intro heq
    rcases p with e | b
    · simp [ModelDeploymentSensor.poke] at heq
    · cases b
      · simp [ModelDeploymentSensor.poke] at heq
      · rcases h with e | hb
        · simp [ModelDeploymentSensor.poke] at heq
        · cases hb
          · simp [ModelDeploymentSensor.poke] at heq
          · exact ⟨rfl, rfl⟩
  · rintro ⟨rfl, rfl⟩
    rfl
